import Mathlib

/-!
Verification of the `python-kong` administrative client (`src/kong/client.py`)
against its natural-language specification.

The embedding models the part of the client that the claims are about: the
response-classification layer (`raise_response_error` and its call sites), the
per-resource CRUD/list/count operations of `APIAdminClient`,
`APIPluginConfigurationAdminClient` and `BasicAuthAdminClient`, the
delete-retry decorator, the throttling adapter's pre-send sleep, and the URL
builder.  The network is external to the client, so each operation takes the
HTTP response (or, for the retried delete, one response per attempt) as an
argument and returns the value the Python method would return, or the
exception it would raise, as an `Except`.  Requests actually issued are
counted so that "fails before any network request" is statable.

Helper functions of the repository that live in files not included under
`src/` (`utils.py`, `compat.py`, `exceptions.py`) are modelled from the
specification; each such definition's doc comment starts with
"Modelled from the spec:".
-/

namespace Kong

/-- HTTP status constants imported by client.py from `compat` (the standard
`http.client`/`httplib` codes). -/
def OK : Nat := 200

/-- HTTP 201. -/
def CREATED : Nat := 201

/-- HTTP 204. -/
def NO_CONTENT : Nat := 204

/-- HTTP 404. -/
def NOT_FOUND : Nat := 404

/-- HTTP 409. -/
def CONFLICT : Nat := 409

/-- A JSON value, the result of `response.json()`. -/
inductive Json where
  | jNull
  | jBool (b : Bool)
  | jInt (n : Int)
  | jStr (s : String)
  | jArr (elems : List Json)
  | jObj (fields : List (String × Json))
deriving Repr

/-- The kind of Python exception a call raises.  `conflictError` is the
repository's `exceptions.ConflictError`; `valueError` is the builtin
`ValueError` used for generic request failures; `jsonDecodeError`,
`typeError` and `attributeError` are the builtin exceptions raised by
`response.json()`, `len(None)` and attribute access on a non-dict;
`validationError` is the fast local failure of the field-whitelist check. -/
inductive ErrKind where
  | valueError
  | conflictError
  | jsonDecodeError
  | typeError
  | attributeError
  | validationError
deriving DecidableEq, Repr

/-- An exception: its kind together with its message. -/
structure KongError where
  kind : ErrKind
  msg : String
deriving DecidableEq, Repr

/-- A Python value as it appears in the form-data / query-parameter dicts the
client builds (`None`, bools, ints, strings). -/
inductive Value where
  | vNone
  | vBool (b : Bool)
  | vInt (n : Int)
  | vStr (s : String)
deriving DecidableEq, Repr

/-- Python truthiness of a `Value`, as tested by `if offset:`. -/
def Value.truthy : Value → Bool
  | .vNone => false
  | .vBool b => b
  | .vInt n => n != 0
  | .vStr s => s != ""

/-- An HTTP response as the client observes it: the status code, the JSON
parse of the body (`none` when the body is not valid JSON), and the raw body
text. -/
structure Response where
  status_code : Nat
  body_json : Option Json
  text : String
deriving Repr

/-- Python's `str(response)` for a `requests` response object: the repr
naming only the status code (not the body text). -/
def str_response (r : Response) : String :=
  "<Response [" ++ toString r.status_code ++ "]>"

/-- The message of the `JSONDecodeError` raised by `response.json()` on a
body that is not valid JSON. -/
def jsonDecodeMsg : String := "No JSON object could be decoded"

/-- Python's `'%s' % value` rendering of a JSON value, as used when the
error-payload fields are flattened into a message.  The claims only exercise
scalar fields; nested containers are rendered by a fixed placeholder. -/
def pyStr : Json → String
  | .jNull => "None"
  | .jBool true => "True"
  | .jBool false => "False"
  | .jInt n => toString n
  | .jStr s => s
  | .jArr _ => "list"
  | .jObj _ => "dict"

/-- `', '.join(['%s: %s' % (key, value) for (key, value) in fields])`:
the flattened "key: value" join of a parsed error payload
(client.py line 31). -/
def joinKV (fields : List (String × Json)) : String :=
  String.intercalate ", " (fields.map (fun kv => kv.1 ++ ": " ++ pyStr kv.2))

/-- `raise_response_error(response, exception_class, is_json)` (client.py
lines 27-32), returned as the error it raises.  With `is_json` true it calls
`response.json().items()`: a body that is not valid JSON makes `.json()`
raise `JSONDecodeError` before the requested exception class is reached, and
a non-object JSON body makes `.items()` raise `AttributeError`.  Only with
`is_json` false does it fall back, and the fallback is `str(response)`. -/
def raise_response_error (r : Response) (ec : ErrKind) (is_json : Bool) : KongError :=
  if is_json then
    match r.body_json with
    | none => ⟨.jsonDecodeError, jsonDecodeMsg⟩
    | some (.jObj fields) => ⟨ec, joinKV fields⟩
    | some _ => ⟨.attributeError, "json value has no attribute items"⟩
  else ⟨ec, str_response r⟩

/-- The outcome of one client operation: the returned value or raised
exception, together with the number of HTTP requests that were issued. -/
structure CallResult (α : Type) where
  result : Except KongError α
  requests_sent : Nat
deriving Repr

/-- Modelled from the spec: `utils.assert_dict_keys_in` (utils.py is not under
`src/`).  Per the spec, a call whose field map "contain[s] at least one
non-whitelisted key ... fails locally with `ValidationError` and issues zero
network requests", and the violation is "never silently dropped". -/
def assert_dict_keys_in (keys allowed : List String) : Except KongError Unit :=
  if keys.all (fun k => allowed.contains k) then .ok ()
  else .error ⟨.validationError, "dict contains invalid keys"⟩

/-- Lookup of a key in a parsed JSON object, i.e. Python's `dict.get(key)`
returning `None` when absent. -/
def jget (fields : List (String × Json)) (key : String) : Option Json :=
  match fields.find? (fun kv => kv.1 == key) with
  | some kv => some kv.2
  | none => none

/-- Python `len` on a JSON value: defined on strings, arrays and objects,
a `TypeError` (modelled as `none`) on everything else, in particular on
`None`. -/
def jLen : Json → Option Int
  | .jStr s => some s.length
  | .jArr xs => some xs.length
  | .jObj fs => some fs.length
  | _ => none

/-- The message of the `TypeError` raised by `len(None)`. -/
def noLenMsg : String := "object of type NoneType has no len()"

/-- `amount = result.get('total', len(result.get('data')))` (client.py line
201 and its verbatim copies in every `count`).  Python evaluates the default
argument eagerly: `len(result.get('data'))` runs before `total` is consulted,
so a missing or null `data` key raises `TypeError` unconditionally.  When the
default evaluates, `.get('total', default)` returns the stored `total` value
whenever the key is present, and the default otherwise. -/
def count_amount (result : Json) : Except KongError Json :=
  match result with
  | .jObj fields =>
    match jLen ((jget fields "data").getD .jNull) with
    | none => .error ⟨.typeError, noLenMsg⟩
    | some l =>
      match jget fields "total" with
      | some t => .ok t
      | none => .ok (.jInt l)
  | _ => .error ⟨.attributeError, "json value has no attribute get"⟩

/-- Python `x or None` on an optional string argument: empty strings are
coerced to `None` ("Empty strings are not allowed", client.py lines 207-208). -/
def orNoneStr : Option String → Value
  | some "" => .vNone
  | some s => .vStr s
  | none => .vNone

/-- An optional string argument passed through unchanged. -/
def optStr : Option String → Value
  | some s => .vStr s
  | none => .vNone

/-! ## APIAdminClient (client.py lines 194-291) -/

/-- The POST body built by `APIAdminClient.add` (lines 205-212). -/
def apiAdmin_add_data (target_url : String) (name public_dns path : Option String)
    (strip_path preserve_host : Bool) : List (String × Value) :=
  [("name", optStr name),
   ("public_dns", orNoneStr public_dns),
   ("path", orNoneStr path),
   ("strip_path", .vBool strip_path),
   ("preserve_host", .vBool preserve_host),
   ("target_url", .vStr target_url)]

/-- The PUT body built by `APIAdminClient.add_or_update` (lines 223-233):
the same fields as `add`, with `id` embedded when `api_id` is provided. -/
def apiAdmin_add_or_update_data (target_url : String) (api_id name public_dns path : Option String)
    (strip_path preserve_host : Bool) : List (String × Value) :=
  apiAdmin_add_data target_url name public_dns path strip_path preserve_host
    ++ (match api_id with
        | some i => [("id", Value.vStr i)]
        | none => [])

/-- `APIAdminClient.add` (lines 204-219), given the response to its POST:
`result = response.json()` runs first (an unparseable body raises there),
then 409 raises `ConflictError`, any status other than 201 raises
`ValueError`, and otherwise the parsed record is returned. -/
def apiAdmin_add (r : Response) : CallResult Json :=
  { result :=
      match r.body_json with
      | none => .error ⟨.jsonDecodeError, jsonDecodeMsg⟩
      | some result =>
        if r.status_code = CONFLICT then .error (raise_response_error r .conflictError true)
        else if r.status_code ≠ CREATED then .error (raise_response_error r .valueError true)
        else .ok result
    requests_sent := 1 }

/-- `APIAdminClient.add_or_update` (lines 221-242), given the response to its
PUT: as `add`, but both 201 and 200 succeed. -/
def apiAdmin_add_or_update (r : Response) : CallResult Json :=
  { result :=
      match r.body_json with
      | none => .error ⟨.jsonDecodeError, jsonDecodeMsg⟩
      | some result =>
        if r.status_code = CONFLICT then .error (raise_response_error r .conflictError true)
        else if r.status_code ≠ CREATED ∧ r.status_code ≠ OK then
          .error (raise_response_error r .valueError true)
        else .ok result
    requests_sent := 1 }

/-- The whitelist of mutable fields of `APIAdminClient.update` (line 245). -/
def apisUpdateWhitelist : List String :=
  ["name", "public_dns", "path", "strip_path", "preserve_host"]

/-- `APIAdminClient.update` (lines 244-254): the field whitelist is checked
before the PATCH is issued; only 200 succeeds. -/
def apiAdmin_update (fields : List (String × Value)) (r : Response) : CallResult Json :=
  match assert_dict_keys_in (fields.map Prod.fst) apisUpdateWhitelist with
  | .error e => { result := .error e, requests_sent := 0 }
  | .ok _ =>
    { result :=
        match r.body_json with
        | none => .error ⟨.jsonDecodeError, jsonDecodeMsg⟩
        | some result =>
          if r.status_code ≠ OK then .error (raise_response_error r .valueError true)
          else .ok result
      requests_sent := 1 }

/-- `APIAdminClient.retrieve` (lines 263-270): GET, only 200 succeeds. -/
def apiAdmin_retrieve (r : Response) : CallResult Json :=
  { result :=
      match r.body_json with
      | none => .error ⟨.jsonDecodeError, jsonDecodeMsg⟩
      | some result =>
        if r.status_code ≠ OK then .error (raise_response_error r .valueError true)
        else .ok result
    requests_sent := 1 }

/-- `APIAdminClient.count` (lines 198-202): GET the list endpoint and read
`result.get('total', len(result.get('data')))`; no status check. -/
def apiAdmin_count (r : Response) : CallResult Json :=
  { result :=
      match r.body_json with
      | none => .error ⟨.jsonDecodeError, jsonDecodeMsg⟩
      | some result => count_amount result
    requests_sent := 1 }

/-- The filter whitelist of `APIAdminClient.list` (line 273). -/
def apisFilterWhitelist : List String := ["id", "name", "public_dns", "path"]

/-- The query-parameter dict built by `APIAdminClient.list` (lines 275-279):
the filters, then `size`, then — only `if offset:`, a truthiness test —
the offset. -/
def apiAdmin_list_query (filter_fields : List (String × Value)) (size offset : Value) :
    List (String × Value) :=
  filter_fields ++ [("size", size)]
    ++ (if offset.truthy then [("offset", offset)] else [])

/-- The outcome of a `list` call: the returned value or raised exception,
the number of HTTP requests issued, and the query parameters of the GET that
was sent (empty when the call failed before any request). -/
structure ListCall where
  result : Except KongError Json
  requests_sent : Nat
  query_sent : List (String × Value)
deriving Repr

/-- `APIAdminClient.list` (lines 272-288): the filter whitelist is checked
before the GET is issued; only 200 succeeds. -/
def apiAdmin_list (filter_fields : List (String × Value)) (size offset : Value)
    (r : Response) : ListCall :=
  match assert_dict_keys_in (filter_fields.map Prod.fst) apisFilterWhitelist with
  | .error e => { result := .error e, requests_sent := 0, query_sent := [] }
  | .ok _ =>
    { result :=
        match r.body_json with
        | none => .error ⟨.jsonDecodeError, jsonDecodeMsg⟩
        | some result =>
          if r.status_code ≠ OK then .error (raise_response_error r .valueError true)
          else .ok result
      requests_sent := 1
      query_sent := apiAdmin_list_query filter_fields size offset }

/-! ## APIPluginConfigurationAdminClient (client.py lines 79-191) -/

/-- The filter whitelist of `APIPluginConfigurationAdminClient.list`
(line 161). -/
def pluginConfigFilterWhitelist : List String := ["id", "name", "api_id", "consumer_id"]

/-- The query-parameter dict built by `APIPluginConfigurationAdminClient.list`
(lines 163-167): unlike the other list implementations this one tests
`if offset is not None:`, so every non-None offset is appended. -/
def apiPluginConfig_list_query (filter_fields : List (String × Value)) (size offset : Value) :
    List (String × Value) :=
  filter_fields ++ [("size", size)]
    ++ (if offset ≠ Value.vNone then [("offset", offset)] else [])

/-- `APIPluginConfigurationAdminClient.list` (lines 160-176). -/
def apiPluginConfig_list (filter_fields : List (String × Value)) (size offset : Value)
    (r : Response) : ListCall :=
  match assert_dict_keys_in (filter_fields.map Prod.fst) pluginConfigFilterWhitelist with
  | .error e => { result := .error e, requests_sent := 0, query_sent := [] }
  | .ok _ =>
    { result :=
        match r.body_json with
        | none => .error ⟨.jsonDecodeError, jsonDecodeMsg⟩
        | some result =>
          if r.status_code ≠ OK then .error (raise_response_error r .valueError true)
          else .ok result
      requests_sent := 1
      query_sent := apiPluginConfig_list_query filter_fields size offset }

/-- `APIPluginConfigurationAdminClient.count` (lines 187-191): identical in
body to `APIAdminClient.count`. -/
def apiPluginConfig_count (r : Response) : CallResult Json :=
  { result :=
      match r.body_json with
      | none => .error ⟨.jsonDecodeError, jsonDecodeMsg⟩
      | some result => count_amount result
    requests_sent := 1 }

/-! ## Delete operations and the retry decorator -/

/-- The `ValueError` message of `APIAdminClient.delete` (line 261). -/
def apiAdmin_delete_errmsg (status_code : Nat) (name_or_id : String) : String :=
  "Could not delete API (status: " ++ toString status_code ++ "): " ++ name_or_id

/-- The `ValueError` message of `BasicAuthAdminClient.delete` (lines 357-358):
it names both the credential id and the parent consumer id. -/
def basicAuth_delete_errmsg (status_code : Nat) (basic_auth_id consumer_id : String) : String :=
  "Could not delete Basic Auth (status: " ++ toString status_code ++ "): "
    ++ basic_auth_id ++ " for Consumer: " ++ consumer_id

/-- The `ValueError` message of `APIPluginConfigurationAdminClient.delete`
(lines 184-185): it names only the plugin-configuration id; the parent API id
appears in the request URL but not in the message. -/
def pluginConfig_delete_errmsg (status_code : Nat) (plugin_name_or_id : String) : String :=
  "Could not delete Plugin Configuration (status: " ++ toString status_code ++ "): "
    ++ plugin_name_or_id

/-- One DELETE attempt (the body of any `delete` method under the decorator):
204 and 404 succeed, any other status raises a `ValueError` built by the
client's message function. -/
def delete_attempt (errmsg : Nat → String) (r : Response) : Except KongError Unit :=
  if r.status_code = NO_CONTENT ∨ r.status_code = NOT_FOUND then .ok ()
  else .error ⟨.valueError, errmsg r.status_code⟩

/-- `@backoff.on_exception(backoff.expo, ValueError, max_tries=3)` — the
external `backoff` library, modelled from its documented contract: run the
operation; when it raises a `ValueError` and attempts remain, wait
(exponential backoff, which does not affect the result) and run it again;
the final attempt's exception propagates.  `resp` scripts the response each
attempt receives, `i` is the attempt index, `tries` the attempts
remaining. -/
def backoff_retry (op : Response → Except KongError Unit) (resp : Nat → Response) :
    Nat → Nat → Except KongError Unit
  | _, 0 => .ok ()
  | i, tries + 1 =>
    match op (resp i) with
    | .ok u => .ok u
    | .error e =>
      if e.kind = ErrKind.valueError ∧ 1 ≤ tries then backoff_retry op resp (i + 1) tries
      else .error e

/-- `APIAdminClient.delete` (lines 256-261): one attempt, wrapped in the
3-try retry decorator. -/
def apiAdmin_delete (name_or_id : String) (resp : Nat → Response) : Except KongError Unit :=
  backoff_retry (delete_attempt (fun sc => apiAdmin_delete_errmsg sc name_or_id)) resp 0 3

/-- `BasicAuthAdminClient.delete` (lines 351-358). -/
def basicAuth_delete (consumer_id basic_auth_id : String) (resp : Nat → Response) :
    Except KongError Unit :=
  backoff_retry
    (delete_attempt (fun sc => basicAuth_delete_errmsg sc basic_auth_id consumer_id)) resp 0 3

/-- `APIPluginConfigurationAdminClient.delete` (lines 178-185).  The client
is constructed with the parent `api_name_or_id`, which the URL uses but the
error message does not. -/
def apiPluginConfig_delete (api_name_or_id plugin_name_or_id : String) (resp : Nat → Response) :
    Except KongError Unit :=
  backoff_retry
    (delete_attempt (fun sc => pluginConfig_delete_errmsg sc plugin_name_or_id)) resp 0 3

/-! ## ThrottlingHTTPAdapter (client.py lines 35-47) -/

/-- The pre-send sleep of `ThrottlingHTTPAdapter.send` (lines 40-44),
returning the number of seconds slept.  Time is modelled in rational seconds.
`last` is the adapter's `_last_request` timestamp (`None` before any
request), `now` is `time.time()` at the check.  The code computes
`diff = time.time() - self._last_request` and, when
`0 < diff < KONG_MINIMUM_REQUEST_INTERVAL`, calls `time.sleep(diff)` —
it sleeps the elapsed time, not the remaining part of the interval. -/
def throttle_sleep (minimum_request_interval : ℚ) (last : Option ℚ) (now : ℚ) : ℚ :=
  match last with
  | none => 0
  | some t =>
    if minimum_request_interval > 0 then
      let diff := now - t
      if 0 < diff ∧ diff < minimum_request_interval then diff else 0
    else 0

/-! ## URL builder (`RestClient.get_url`, client.py lines 74-76)

`get_url` composes `ensure_trailing_slash(urljoin(api_url, '/'.join(path)))`
and then `add_url_params`.  `ensure_trailing_slash` and `add_url_params` come
from `utils.py` and `urljoin` from `compat.py`, neither of which is under
`src/`; they are modelled from the spec. -/

/-- Modelled from the spec: `utils.ensure_trailing_slash` (utils.py is not
under `src/`).  The spec's URL-builder contract is to "produce a URL whose
path always ends in a single trailing slash" and to be idempotent
("re-joining an already-slashed URL may not duplicate slashes"): trailing
slashes are normalised to exactly one. -/
def ensure_trailing_slash (url : String) : String :=
  ⟨(url.data.reverse.dropWhile (fun c => c == '/')).reverse ++ ['/']⟩

/-- Modelled from the spec: `compat.urljoin` (compat.py, which re-exports the
standard library's URL join, is not under `src/`).  For the relative
references `get_url` produces: an empty reference returns the base
unchanged, and otherwise the reference replaces the text after the last
slash of the base.  Dot-segment normalisation and scheme/authority special
cases of the standard library are not modelled; no claim depends on them. -/
def urljoin (base rel : String) : String :=
  if rel = "" then base
  else ⟨(base.data.reverse.dropWhile (fun c => c != '/')).reverse⟩ ++ rel

/-- Python `str(value)` of a query-parameter value. -/
def valueStr : Value → String
  | .vNone => "None"
  | .vBool true => "True"
  | .vBool false => "False"
  | .vInt n => toString n
  | .vStr s => s

/-- Modelled from the spec: `utils.add_url_params` (utils.py is not under
`src/`).  Per the spec it "append[s] query parameters (value `None`/absent
entries omitted, all others URL-encoded) without disturbing the trailing
slash"; URL-encoding is modelled as the identity, which is exact on the
alphanumeric tokens the claims use. -/
def add_url_params (url : String) (params : List (String × Value)) : String :=
  let kept := params.filter (fun kv => kv.2 != Value.vNone)
  if kept.isEmpty then url
  else url ++ "?" ++ String.intercalate "&" (kept.map (fun kv => kv.1 ++ "=" ++ valueStr kv.2))

/-- The path part of `RestClient.get_url` (line 75):
`ensure_trailing_slash(urljoin(self.api_url, '/'.join(path)))`. -/
def get_url_path (api_url : String) (path : List String) : String :=
  ensure_trailing_slash (urljoin api_url (String.intercalate "/" path))

/-- `RestClient.get_url` (lines 74-76). -/
def get_url (api_url : String) (path : List String) (query_params : List (String × Value)) :
    String :=
  add_url_params (get_url_path api_url path) query_params

/-- The string `s` names the identifier `ident` when `ident` occurs in `s`
as a contiguous substring. -/
def names (s ident : String) : Prop := ident.data <:+: s.data

instance (s ident : String) : Decidable (names s ident) :=
  inferInstanceAs (Decidable (_ <:+: _))

/-- A string ending "exactly one trailing slash": its characters are some
list not itself ending in a slash, followed by a single slash. -/
def endsInExactlyOneSlash (s : String) : Prop :=
  ∃ l : List Char, s.data = l ++ ['/'] ∧ ∀ c, l.getLast? = some c → c ≠ '/'

/-! ## Helper lemmas -/

theorem string_eq_of_data {s t : String} (h : s.data = t.data) : s = t :=
  congrArg String.mk h

theorem string_append_empty (s : String) : s ++ "" = s := by
  apply string_eq_of_data
  simp [String.data_append]

theorem names_of_data (msg ident : String) (s t : List Char)
    (h : msg.data = s ++ ident.data ++ t) : names msg ident :=
  ⟨s, t, h.symm⟩

theorem assert_dict_keys_in_ok (keys allowed : List String) (h : ∀ k ∈ keys, k ∈ allowed) :
    assert_dict_keys_in keys allowed = .ok () := by
  unfold assert_dict_keys_in
  rw [if_pos (by simpa using h)]

theorem assert_dict_keys_in_fail (keys allowed : List String) (k : String)
    (hk : k ∈ keys) (hnk : k ∉ allowed) :
    assert_dict_keys_in keys allowed = .error ⟨.validationError, "dict contains invalid keys"⟩ := by
  unfold assert_dict_keys_in
  rw [if_neg]
  intro hall
  rw [List.all_eq_true] at hall
  exact hnk (by simpa using hall k hk)

theorem delete_attempt_ok (errmsg : Nat → String) (r : Response)
    (h : r.status_code = NO_CONTENT ∨ r.status_code = NOT_FOUND) :
    delete_attempt errmsg r = .ok () := by
  unfold delete_attempt
  rw [if_pos h]

theorem delete_attempt_fail (errmsg : Nat → String) (r : Response)
    (h1 : r.status_code ≠ NO_CONTENT) (h2 : r.status_code ≠ NOT_FOUND) :
    delete_attempt errmsg r = .error ⟨.valueError, errmsg r.status_code⟩ := by
  unfold delete_attempt
  rw [if_neg]
  rintro (h | h)
  · exact h1 h
  · exact h2 h

theorem backoff_retry_succ (op : Response → Except KongError Unit) (resp : Nat → Response)
    (i tries : Nat) :
    backoff_retry op resp i (tries + 1) =
      match op (resp i) with
      | .ok u => .ok u
      | .error e =>
        if e.kind = ErrKind.valueError ∧ 1 ≤ tries then backoff_retry op resp (i + 1) tries
        else .error e := by
  rw [backoff_retry]

/-- After two ValueError failures the decorated call's outcome is exactly the
outcome of the third (final) attempt. -/
theorem backoff_retry_third (op : Response → Except KongError Unit) (resp : Nat → Response)
    (e0 e1 : KongError)
    (h0 : op (resp 0) = .error e0) (k0 : e0.kind = ErrKind.valueError)
    (h1 : op (resp 1) = .error e1) (k1 : e1.kind = ErrKind.valueError) :
    backoff_retry op resp 0 3 = op (resp 2) := by
  rw [show (3 : Nat) = 2 + 1 from rfl, backoff_retry_succ, h0]
  simp only [k0]
  norm_num
  rw [show (2 : Nat) = 1 + 1 from rfl, backoff_retry_succ, h1]
  simp only [k1]
  norm_num
  rw [show (1 : Nat) = 0 + 1 from rfl, backoff_retry_succ]
  cases op (resp 2) with
  | ok u => rfl
  | error e => simp

theorem backoff_retry_first_ok (op : Response → Except KongError Unit) (resp : Nat → Response)
    (h : op (resp 0) = .ok ()) : backoff_retry op resp 0 3 = .ok () := by
  rw [show (3 : Nat) = 2 + 1 from rfl, backoff_retry_succ, h]

theorem dropWhile_dropWhile {α : Type} (p : α → Bool) (l : List α) :
    (l.dropWhile p).dropWhile p = l.dropWhile p := by
  cases h : l.dropWhile p with
  | nil => rfl
  | cons c t =>
    have hc : p c = false := by
      have hh := List.head?_dropWhile_not p l
      rw [h] at hh
      simpa using hh
    simp [List.dropWhile_cons, hc]

theorem ensure_trailing_slash_one_slash (u : String) :
    endsInExactlyOneSlash (ensure_trailing_slash u) := by
  refine ⟨(u.data.reverse.dropWhile (fun c => c == '/')).reverse, rfl, ?_⟩
  intro c hc
  rw [List.getLast?_reverse] at hc
  have hh := List.head?_dropWhile_not (fun c => c == '/') u.data.reverse
  rw [hc] at hh
  simpa using hh

theorem ensure_trailing_slash_idem (u : String) :
    ensure_trailing_slash (ensure_trailing_slash u) = ensure_trailing_slash u := by
  apply string_eq_of_data
  show ((((u.data.reverse.dropWhile (fun c => c == '/')).reverse ++ ['/']).reverse.dropWhile
      (fun c => c == '/')).reverse ++ ['/'])
    = (u.data.reverse.dropWhile (fun c => c == '/')).reverse ++ ['/']
  rw [List.reverse_append, List.reverse_reverse]
  simp only [List.reverse_cons, List.reverse_nil, List.nil_append, List.singleton_append,
    List.dropWhile_cons]
  norm_num [dropWhile_dropWhile]

theorem ensure_trailing_slash_endsWith (u : String) :
    ∃ l : List Char, (ensure_trailing_slash u).data = l ++ ['/'] :=
  ⟨_, rfl⟩

/-! ## Claims -/

/-- C1: the claim says that with `minimum_request_interval = T > 0`, a
previous-request timestamp and elapsed time `diff` with `0 < diff < T`, the
sender sleeps `T - diff` so that the gap between send starts is at least
`T`.  The code (client.py line 44) instead executes `time.sleep(diff)`:
at `T = 10` with the previous request recorded at time 0 and the check at
time 1, it sleeps 1 second — not the remaining 9 — and the next send starts
at time 2, less than `T` after the previous request. -/
theorem C1_throttle_sleeps_elapsed_not_remaining :
    throttle_sleep 10 (some 0) 1 = 1 ∧
    throttle_sleep 10 (some 0) 1 ≠ 10 - 1 ∧
    1 + throttle_sleep 10 (some 0) 1 < 10 := by
  norm_num [throttle_sleep]

/-- A 500 response whose body is not valid JSON. -/
def nonJsonFailResponse : Response :=
  { status_code := 500, body_json := none, text := "upstream error page" }

/-- C2 counterexample: every classification call site invokes
`raise_response_error` with `is_json` left at its default `True`, so on a
failure response whose body is not valid JSON the call raises the JSON
parse failure — its message is not the raw response text, contradicting the
claim that "the error message falls back to the raw response text instead of
the parse failing the call". -/
theorem C2_counterexample :
    raise_response_error nonJsonFailResponse .valueError true
        = ⟨.jsonDecodeError, jsonDecodeMsg⟩ ∧
    (raise_response_error nonJsonFailResponse .valueError true).msg
        ≠ nonJsonFailResponse.text ∧
    (apiAdmin_add nonJsonFailResponse).result = .error ⟨.jsonDecodeError, jsonDecodeMsg⟩ := by
  refine ⟨rfl, ?_, rfl⟩
  decide

/-- C2 (amended): for responses whose body parses as a JSON object, Conflict
(409) and generic failures raise the typed error whose message is the
"key: value" join of the body's fields.  The raw fallback exists only on the
`is_json = False` path — where it renders `str(response)`, not the body
text — and no classification call site takes that path: when the body cannot
be parsed, the JSON parse error propagates instead. -/
theorem C2_error_message_flattening (r : Response) :
    (∀ fields, r.body_json = some (.jObj fields) → r.status_code = CONFLICT →
      (apiAdmin_add r).result = .error ⟨.conflictError, joinKV fields⟩) ∧
    (∀ fields, r.body_json = some (.jObj fields) →
      r.status_code ≠ CONFLICT → r.status_code ≠ CREATED →
      (apiAdmin_add r).result = .error ⟨.valueError, joinKV fields⟩) ∧
    (r.body_json = none →
      (apiAdmin_add r).result = .error ⟨.jsonDecodeError, jsonDecodeMsg⟩) ∧
    (∀ ec, raise_response_error r ec false = ⟨ec, str_response r⟩) := by
  refine ⟨?_, ?_, ?_, fun ec => rfl⟩
  · intro fields hj hc
    simp [apiAdmin_add, hj, hc, raise_response_error, joinKV]
  · intro fields hj hc hcr
    simp [apiAdmin_add, hj, hc, hcr, raise_response_error, joinKV]
  · intro hj
    simp [apiAdmin_add, hj]

theorem C2_error_message_flattening_witness :
    (apiAdmin_add ⟨409, some (.jObj [("name", .jStr "already exists")]), ""⟩).result
      = .error ⟨.conflictError, "name: already exists"⟩ :=
  (C2_error_message_flattening _).1 [("name", .jStr "already exists")] rfl rfl

/-- C10: every `count` reads
`result.get('total', len(result.get('data')))`; Python evaluates the default
argument eagerly, so when the body has no `"data"` key the call raises
`TypeError` (`len(None)`) even when `"total"` is present. -/
theorem C10_count_eager_len_default (fields : List (String × Json)) (t : Json) (r : Response)
    (hj : r.body_json = some (.jObj fields))
    (hd : jget fields "data" = none) (ht : jget fields "total" = some t) :
    (apiAdmin_count r).result = .error ⟨.typeError, noLenMsg⟩ ∧
    (apiPluginConfig_count r).result = .error ⟨.typeError, noLenMsg⟩ := by
  have hcore : count_amount (.jObj fields) = .error ⟨.typeError, noLenMsg⟩ := by
    simp [count_amount, hd, jLen]
  constructor
  · simp [apiAdmin_count, hj, hcore]
  · simp [apiPluginConfig_count, hj, hcore]

theorem C10_count_eager_len_default_witness :
    (apiAdmin_count ⟨OK, some (.jObj [("total", .jInt 5)]), ""⟩).result
      = .error ⟨.typeError, noLenMsg⟩ :=
  (C10_count_eager_len_default [("total", .jInt 5)] (.jInt 5) _ rfl rfl rfl).1

/-- C7 counterexample: the claim says "a response containing `total` always
yields that total", but on the body consisting only of `total = 7` the count
call raises `TypeError`, because `len(result.get('data'))` is evaluated
before `total` is consulted. -/
theorem C7_counterexample :
    (apiAdmin_count ⟨OK, some (.jObj [("total", .jInt 7)]), ""⟩).result
      = .error ⟨.typeError, noLenMsg⟩ ∧
    (apiAdmin_count ⟨OK, some (.jObj [("total", .jInt 7)]), ""⟩).result
      ≠ .ok (.jInt 7) := by
  refine ⟨rfl, fun h => ?_⟩
  have h2 : (Except.error ⟨.typeError, noLenMsg⟩ : Except KongError Json)
      = .ok (.jInt 7) := h
  exact Except.noConfusion h2

/-- C7 (amended): provided the body's `"data"` key is present and holds the
record page, `count` returns the value of `"total"` when that key is
present, and otherwise the length of the page. -/
theorem C7_count_total_or_page_length (fields : List (String × Json)) (ds : List Json)
    (r : Response) (hj : r.body_json = some (.jObj fields))
    (hd : jget fields "data" = some (.jArr ds)) :
    (∀ t, jget fields "total" = some t → (apiAdmin_count r).result = .ok t) ∧
    (jget fields "total" = none → (apiAdmin_count r).result = .ok (.jInt ds.length)) := by
  constructor
  · intro t ht
    simp [apiAdmin_count, hj, count_amount, hd, ht, jLen]
  · intro ht
    simp [apiAdmin_count, hj, count_amount, hd, ht, jLen]

theorem C7_count_total_or_page_length_witness :
    (apiAdmin_count ⟨OK, some (.jObj [("total", .jInt 1), ("data", .jArr [.jObj []])]), ""⟩).result
      = .ok (.jInt 1) :=
  (C7_count_total_or_page_length [("total", .jInt 1), ("data", .jArr [.jObj []])]
    [.jObj []] _ rfl rfl).1 (.jInt 1) rfl

theorem string_append_assoc (a b c : String) : a ++ b ++ c = a ++ (b ++ c) := by
  apply string_eq_of_data
  simp [String.data_append]

/-- A 200 response with an empty JSON object body. -/
def okEmptyResponse : Response := ⟨OK, some (.jObj []), ""⟩

/-- C3: a delete whose DELETE returns a generic-failure status on the first
two attempts and 204 on the third succeeds overall; one failing on all three
attempts surfaces the final `ValueError`; and the non-delete operations are
undecorated — they issue at most one request and surface the first failure
as-is. -/
theorem C3_delete_retry_policy (name_or_id api_name_or_id : String) (resp : Nat → Response)
    (h0 : (resp 0).status_code ≠ NO_CONTENT ∧ (resp 0).status_code ≠ NOT_FOUND)
    (h1 : (resp 1).status_code ≠ NO_CONTENT ∧ (resp 1).status_code ≠ NOT_FOUND) :
    ((resp 2).status_code = NO_CONTENT → apiAdmin_delete name_or_id resp = .ok ()) ∧
    ((resp 2).status_code ≠ NO_CONTENT → (resp 2).status_code ≠ NOT_FOUND →
      apiAdmin_delete name_or_id resp
        = .error ⟨.valueError, apiAdmin_delete_errmsg (resp 2).status_code name_or_id⟩) ∧
    ((resp 2).status_code = NO_CONTENT →
      apiPluginConfig_delete api_name_or_id name_or_id resp = .ok ()) ∧
    ((resp 2).status_code ≠ NO_CONTENT → (resp 2).status_code ≠ NOT_FOUND →
      apiPluginConfig_delete api_name_or_id name_or_id resp
        = .error ⟨.valueError, pluginConfig_delete_errmsg (resp 2).status_code name_or_id⟩) ∧
    (∀ r, (apiAdmin_add r).requests_sent = 1) ∧
    (∀ r, (apiAdmin_add_or_update r).requests_sent = 1) ∧
    (∀ r, (apiAdmin_retrieve r).requests_sent = 1) ∧
    (∀ r, (apiAdmin_count r).requests_sent = 1) ∧
    (∀ fields r, (apiAdmin_update fields r).requests_sent ≤ 1) ∧
    (∀ ff s o r, (apiAdmin_list ff s o r).requests_sent ≤ 1) ∧
    (∀ r fields, r.body_json = some (.jObj fields) →
      r.status_code ≠ CREATED → r.status_code ≠ CONFLICT →
      (apiAdmin_add r).result = .error ⟨.valueError, joinKV fields⟩) := by
  have api3 := backoff_retry_third
    (delete_attempt (fun sc => apiAdmin_delete_errmsg sc name_or_id)) resp _ _
    (delete_attempt_fail _ _ h0.1 h0.2) rfl (delete_attempt_fail _ _ h1.1 h1.2) rfl
  have plug3 := backoff_retry_third
    (delete_attempt (fun sc => pluginConfig_delete_errmsg sc name_or_id)) resp _ _
    (delete_attempt_fail _ _ h0.1 h0.2) rfl (delete_attempt_fail _ _ h1.1 h1.2) rfl
  refine ⟨?_, ?_, ?_, ?_, fun r => rfl, fun r => rfl, fun r => rfl, fun r => rfl, ?_, ?_, ?_⟩
  · intro h2
    show backoff_retry _ resp 0 3 = .ok ()
    rw [api3]
    exact delete_attempt_ok _ _ (Or.inl h2)
  · intro h2 h2'
    show backoff_retry _ resp 0 3 = _
    rw [api3]
    exact delete_attempt_fail _ _ h2 h2'
  · intro h2
    show backoff_retry _ resp 0 3 = .ok ()
    rw [plug3]
    exact delete_attempt_ok _ _ (Or.inl h2)
  · intro h2 h2'
    show backoff_retry _ resp 0 3 = _
    rw [plug3]
    exact delete_attempt_fail _ _ h2 h2'
  · intro fields r
    unfold apiAdmin_update
    cases assert_dict_keys_in (fields.map Prod.fst) apisUpdateWhitelist <;> simp
  · intro ff s o r
    unfold apiAdmin_list
    cases assert_dict_keys_in (ff.map Prod.fst) apisFilterWhitelist <;> simp
  · intro r fields hj hcr hc
    simp [apiAdmin_add, hj, hc, hcr, raise_response_error, joinKV]

/-- The response script of the retry witness: two 500 responses, then 204. -/
def c3resp : Nat → Response :=
  fun i => if i < 2 then ⟨500, some (.jObj []), ""⟩ else ⟨204, none, ""⟩

theorem C3_delete_retry_policy_witness :
    apiAdmin_delete "mockbin" c3resp = .ok () :=
  (C3_delete_retry_policy "mockbin" "parent" c3resp
    ⟨by decide, by decide⟩ ⟨by decide, by decide⟩).1 (by decide)

/-- C4 counterexample: `APIPluginConfigurationAdminClient` is a nested
resource client (plugin configurations under an API), yet its delete error
message names only the plugin-configuration identifier — the parent API
identifier the client was created with does not occur in the message,
contradicting "for nested clients, the parent identifier". -/
theorem C4_counterexample :
    apiPluginConfig_delete "parent-api" "rate-limiting" (fun _ => ⟨500, none, ""⟩)
      = .error ⟨.valueError, pluginConfig_delete_errmsg 500 "rate-limiting"⟩ ∧
    ¬ names (pluginConfig_delete_errmsg 500 "rate-limiting") "parent-api" := by
  refine ⟨rfl, by decide⟩

/-- C4 (amended): a delete call succeeds exactly when the DELETE response
status is 204 or 404 (so deleting an already-deleted identifier succeeds,
again on a repeated call); any other status raises a generic `ValueError`
whose message names the resource identifier, and the consumer-credential
nested clients additionally name the parent consumer identifier — but the
API-plugin-configuration nested client's message does not include its
parent identifier. -/
theorem C4_delete_idempotent_and_message (name_or_id consumer_id basic_auth_id : String)
    (r : Response) :
    (apiAdmin_delete name_or_id (fun _ => r) = .ok ()
      ↔ (r.status_code = NO_CONTENT ∨ r.status_code = NOT_FOUND)) ∧
    (r.status_code = NOT_FOUND → apiAdmin_delete name_or_id (fun _ => r) = .ok ()) ∧
    (r.status_code ≠ NO_CONTENT → r.status_code ≠ NOT_FOUND →
      apiAdmin_delete name_or_id (fun _ => r)
        = .error ⟨.valueError, apiAdmin_delete_errmsg r.status_code name_or_id⟩) ∧
    (r.status_code ≠ NO_CONTENT → r.status_code ≠ NOT_FOUND →
      basicAuth_delete consumer_id basic_auth_id (fun _ => r)
        = .error ⟨.valueError, basicAuth_delete_errmsg r.status_code basic_auth_id consumer_id⟩) ∧
    (∀ sc, names (apiAdmin_delete_errmsg sc name_or_id) name_or_id) ∧
    (∀ sc, names (basicAuth_delete_errmsg sc basic_auth_id consumer_id) basic_auth_id) ∧
    (∀ sc, names (basicAuth_delete_errmsg sc basic_auth_id consumer_id) consumer_id) := by
  refine ⟨?_, ?_, ?_, ?_, ?_, ?_, ?_⟩
  · constructor
    · intro hok
      by_cases hin : r.status_code = NO_CONTENT ∨ r.status_code = NOT_FOUND
      · exact hin
      · push_neg at hin
        have hfail := delete_attempt_fail
          (fun sc => apiAdmin_delete_errmsg sc name_or_id) r hin.1 hin.2
        have h3 := backoff_retry_third _ (fun _ => r) _ _ hfail rfl hfail rfl
        unfold apiAdmin_delete at hok
        rw [h3, hfail] at hok
        exact Except.noConfusion hok
    · intro hin
      exact backoff_retry_first_ok _ _ (delete_attempt_ok _ _ hin)
  · intro h404
    exact backoff_retry_first_ok _ _ (delete_attempt_ok _ _ (Or.inr h404))
  · intro h1 h2
    have hfail := delete_attempt_fail (fun sc => apiAdmin_delete_errmsg sc name_or_id) r h1 h2
    have h3 := backoff_retry_third _ (fun _ => r) _ _ hfail rfl hfail rfl
    show backoff_retry _ _ 0 3 = _
    rw [h3]
    exact hfail
  · intro h1 h2
    have hfail := delete_attempt_fail
      (fun sc => basicAuth_delete_errmsg sc basic_auth_id consumer_id) r h1 h2
    have h3 := backoff_retry_third _ (fun _ => r) _ _ hfail rfl hfail rfl
    show backoff_retry _ _ 0 3 = _
    rw [h3]
    exact hfail
  · intro sc
    exact names_of_data _ _ ("Could not delete API (status: " ++ toString sc ++ "): ").data []
      (by simp [apiAdmin_delete_errmsg, String.data_append])
  · intro sc
    exact names_of_data _ _
      ("Could not delete Basic Auth (status: " ++ toString sc ++ "): ").data
      (" for Consumer: " ++ consumer_id).data
      (by simp [basicAuth_delete_errmsg, String.data_append])
  · intro sc
    exact names_of_data _ _
      ("Could not delete Basic Auth (status: " ++ toString sc ++ "): " ++ basic_auth_id
        ++ " for Consumer: ").data []
      (by simp [basicAuth_delete_errmsg, String.data_append])

theorem C4_delete_idempotent_and_message_witness :
    apiAdmin_delete "already-gone" (fun _ => ⟨NOT_FOUND, none, ""⟩) = .ok () :=
  (C4_delete_idempotent_and_message "already-gone" "c" "b" ⟨NOT_FOUND, none, ""⟩).2.1 rfl

/-- C5: a list or update call whose field map contains a key outside the
resource's whitelist fails locally with the validation error and issues
zero requests; when every key is whitelisted, exactly one request is
issued. -/
theorem C5_whitelist_validation (filter_fields fields : List (String × Value))
    (size offset : Value) (r r' : Response) :
    (∀ k, k ∈ filter_fields.map Prod.fst → k ∉ apisFilterWhitelist →
      (apiAdmin_list filter_fields size offset r).requests_sent = 0 ∧
      (apiAdmin_list filter_fields size offset r).result
        = .error ⟨.validationError, "dict contains invalid keys"⟩) ∧
    ((∀ k ∈ filter_fields.map Prod.fst, k ∈ apisFilterWhitelist) →
      (apiAdmin_list filter_fields size offset r).requests_sent = 1) ∧
    (∀ k, k ∈ fields.map Prod.fst → k ∉ apisUpdateWhitelist →
      (apiAdmin_update fields r').requests_sent = 0 ∧
      (apiAdmin_update fields r').result
        = .error ⟨.validationError, "dict contains invalid keys"⟩) ∧
    ((∀ k ∈ fields.map Prod.fst, k ∈ apisUpdateWhitelist) →
      (apiAdmin_update fields r').requests_sent = 1) := by
  refine ⟨?_, ?_, ?_, ?_⟩
  · intro k hk hnk
    unfold apiAdmin_list
    rw [assert_dict_keys_in_fail _ _ k hk hnk]
    exact ⟨rfl, rfl⟩
  · intro hall
    unfold apiAdmin_list
    rw [assert_dict_keys_in_ok _ _ hall]
  · intro k hk hnk
    unfold apiAdmin_update
    rw [assert_dict_keys_in_fail _ _ k hk hnk]
    exact ⟨rfl, rfl⟩
  · intro hall
    unfold apiAdmin_update
    rw [assert_dict_keys_in_ok _ _ hall]

theorem C5_whitelist_validation_witness :
    (apiAdmin_list [("owner", .vStr "x")] (.vInt 100) .vNone okEmptyResponse).requests_sent = 0 ∧
    (apiAdmin_list [("name", .vStr "svc")] (.vInt 100) .vNone okEmptyResponse).requests_sent = 1 :=
  ⟨((C5_whitelist_validation [("owner", .vStr "x")] [] (.vInt 100) .vNone
      okEmptyResponse okEmptyResponse).1 "owner" (by decide) (by decide)).1,
   (C5_whitelist_validation [("name", .vStr "svc")] [] (.vInt 100) .vNone
      okEmptyResponse okEmptyResponse).2.1 (by decide)⟩

/-- C6: with a parseable object body, `add` returns the parsed record
exactly when the status is 201, raises `ConflictError` on 409 and a generic
`ValueError` on any other status, while `add_or_update` returns the parsed
record exactly when the status is 200 or 201 — so a second PUT answered
with 200 succeeds rather than conflicting. -/
theorem C6_create_status_classification (r : Response) (fields : List (String × Json))
    (hj : r.body_json = some (.jObj fields)) :
    ((apiAdmin_add r).result = .ok (.jObj fields) ↔ r.status_code = CREATED) ∧
    (r.status_code = CONFLICT →
      (apiAdmin_add r).result = .error ⟨.conflictError, joinKV fields⟩) ∧
    (r.status_code ≠ CONFLICT → r.status_code ≠ CREATED →
      (apiAdmin_add r).result = .error ⟨.valueError, joinKV fields⟩) ∧
    ((apiAdmin_add_or_update r).result = .ok (.jObj fields)
      ↔ (r.status_code = OK ∨ r.status_code = CREATED)) := by
  refine ⟨?_, ?_, ?_, ?_⟩
  · constructor
    · intro h
      by_cases hc : r.status_code = CONFLICT
      · simp [apiAdmin_add, hj, hc] at h
      · by_cases hcr : r.status_code = CREATED
        · exact hcr
        · simp [apiAdmin_add, hj, hc, hcr] at h
    · intro hcr
      simp [apiAdmin_add, hj, hcr, CREATED, CONFLICT]
  · intro hc
    simp [apiAdmin_add, hj, hc, raise_response_error, joinKV]
  · intro hc hcr
    simp [apiAdmin_add, hj, hc, hcr, raise_response_error, joinKV]
  · constructor
    · intro h
      by_cases hc : r.status_code = CONFLICT
      · simp [apiAdmin_add_or_update, hj, hc] at h
      · by_cases h200 : r.status_code = OK
        · exact Or.inl h200
        · by_cases hcr : r.status_code = CREATED
          · exact Or.inr hcr
          · simp [apiAdmin_add_or_update, hj, hc, h200, hcr] at h
    · rintro (h200 | hcr)
      · simp [apiAdmin_add_or_update, hj, h200, OK, CREATED, CONFLICT]
      · simp [apiAdmin_add_or_update, hj, hcr, OK, CREATED, CONFLICT]

theorem C6_create_status_classification_witness :
    (apiAdmin_add ⟨CREATED, some (.jObj [("id", .jStr "abc")]), ""⟩).result
        = .ok (.jObj [("id", .jStr "abc")]) ∧
    (apiAdmin_add_or_update ⟨OK, some (.jObj [("id", .jStr "abc")]), ""⟩).result
        = .ok (.jObj [("id", .jStr "abc")]) :=
  ⟨(C6_create_status_classification ⟨CREATED, some (.jObj [("id", .jStr "abc")]), ""⟩
      [("id", .jStr "abc")] rfl).1.mpr rfl,
   (C6_create_status_classification ⟨OK, some (.jObj [("id", .jStr "abc")]), ""⟩
      [("id", .jStr "abc")] rfl).2.2.2.mpr (Or.inl rfl)⟩

/-- C8: for every base URL and every sequence of path segments, the URL the
builder produces ends in exactly one trailing slash before the query string
(the query suffix is appended after it), and re-running the builder on its
own output does not add another slash. -/
theorem C8_url_builder_trailing_slash (api_url : String) (path : List String)
    (query_params : List (String × Value)) :
    endsInExactlyOneSlash (get_url_path api_url path) ∧
    get_url_path (get_url_path api_url path) [] = get_url_path api_url path ∧
    ∃ suffix, get_url api_url path query_params = get_url_path api_url path ++ suffix := by
  refine ⟨ensure_trailing_slash_one_slash _, ?_, ?_⟩
  · show ensure_trailing_slash (urljoin (get_url_path api_url path) (String.intercalate "/" []))
        = get_url_path api_url path
    rw [show String.intercalate "/" [] = "" from rfl]
    unfold urljoin
    rw [if_pos rfl]
    exact ensure_trailing_slash_idem _
  · unfold get_url
    by_cases h : (query_params.filter (fun kv => kv.2 != Value.vNone)).isEmpty
    · refine ⟨"", ?_⟩
      rw [string_append_empty]
      simp [add_url_params, h]
    · refine ⟨"?" ++ String.intercalate "&"
        ((query_params.filter (fun kv => kv.2 != Value.vNone)).map
          (fun kv => kv.1 ++ "=" ++ valueStr kv.2)), ?_⟩
      simp [add_url_params, h, string_append_assoc]

/-- C9 counterexample: `APIAdminClient.list` guards the offset with a Python
truthiness test (`if offset:`, client.py line 278), so the non-None offset
`0` is dropped from the query parameters of the GET that is sent. -/
theorem C9_counterexample :
    Value.vInt 0 ≠ Value.vNone ∧
    (apiAdmin_list [] (.vInt 100) (.vInt 0) okEmptyResponse).requests_sent = 1 ∧
    ((apiAdmin_list [] (.vInt 100) (.vInt 0) okEmptyResponse).query_sent.find?
        (fun kv => kv.1 == "offset")) = none := by
  refine ⟨by decide, rfl, by decide⟩

/-- C9 (amended): the plugin-configuration list checks `offset is not None`
and passes every non-None offset verbatim as a query parameter; the other
list implementations check truthiness, so they pass truthy offsets verbatim
but silently drop falsy non-None offsets such as `0` or the empty string. -/
theorem C9_offset_passthrough (filter_fields : List (String × Value)) (size offset : Value)
    (r : Response) :
    (offset ≠ Value.vNone →
      ("offset", offset) ∈ apiPluginConfig_list_query filter_fields size offset) ∧
    (offset ≠ Value.vNone →
      (∀ k ∈ filter_fields.map Prod.fst, k ∈ pluginConfigFilterWhitelist) →
      ("offset", offset) ∈ (apiPluginConfig_list filter_fields size offset r).query_sent) ∧
    (offset.truthy = true →
      ("offset", offset) ∈ apiAdmin_list_query filter_fields size offset) ∧
    (offset.truthy = false →
      apiAdmin_list_query filter_fields size offset = filter_fields ++ [("size", size)]) := by
  refine ⟨?_, ?_, ?_, ?_⟩
  · intro h
    simp [apiPluginConfig_list_query, h]
  · intro h hall
    unfold apiPluginConfig_list
    rw [assert_dict_keys_in_ok _ _ hall]
    simp [apiPluginConfig_list_query, h]
  · intro h
    simp [apiAdmin_list_query, h]
  · intro h
    simp [apiAdmin_list_query, h]

theorem C9_offset_passthrough_witness :
    ("offset", Value.vStr "tok") ∈ apiPluginConfig_list_query [] (.vInt 100) (.vStr "tok") ∧
    apiAdmin_list_query [] (.vInt 100) (.vInt 0) = [] ++ [("size", Value.vInt 100)] :=
  ⟨(C9_offset_passthrough [] (.vInt 100) (.vStr "tok") okEmptyResponse).1 (by decide),
   (C9_offset_passthrough [] (.vInt 100) (.vInt 0) okEmptyResponse).2.2.2 (by decide)⟩

end Kong

